import Mathlib

set_option autoImplicit false

/-!
Verification of the `up` CLI's Helm-based UXP installer
(`internal/uxp/installers/helm`, file embedded from `src/unnamed/part_000`).

The installer orchestrates install / upgrade / uninstall of a single Helm
release, reconciling the canonical chart name (`universal-crossplane`) with
the legacy one (`crossplane`), caching chart archives on disk, and rolling
back failed upgrades.

External collaborators (the Helm action clients, the semver parser, the
filesystem and the chart loader) are modelled as oracle functions collected
in `Env`.  The observable side effects of one command invocation (files
created, the arguments passed to each collaborator) are threaded through an
explicit `World` state.  The installer's own mutable state (notably
`releaseName`, which flips to the legacy name on fallback) is the
`Installer` record, threaded in and out of each operation exactly as the Go
methods mutate their receiver.
-/

namespace UpHelm

/-! ## Constants (from the `const` blocks of the source) -/

def defaultCacheDir : String := ".cache/up/charts"

def defaultNamespace : String := "upbound-system"

def defaultRepoURL : String := "https://charts.upbound.io/stable"

def defaultUnstableRepoURL : String := "https://charts.upbound.io/main"

def defaultChartName : String := "universal-crossplane"

def crossplaneChartName : String := "crossplane"

def allVersions : String := ">0.0.0-0"

/-- Source constant `errGetInstalledReleaseFmt`, formatted with the namespace. -/
def errGetInstalledReleaseFmt (ns : String) : String :=
  s!"could not identify installed release for crossplane or universal-crossplane in namespace {ns}"

def errVerifyInstalledVersion : String := "could not identify current version"

def errVerifyChartNotInstalled : String := "could not verify that chart is not already installed"

/-- Source constant `errChartAlreadyInstalledFmt`, formatted with the version. -/
def errChartAlreadyInstalledFmt (v : String) : String :=
  s!"chart already installed with version {v}"

def errPullChart : String := "could not pull chart"

def errGetLatestPulled : String := "could not identify chart pulled as latest"

/-- Source constant `errCorruptTempDirFmt`, formatted with the cache dir. -/
def errCorruptTempDirFmt (dir : String) : String :=
  s!"corrupt chart tmp directory, consider removing cache ({dir})"

def errMoveLatest : String := "could not move latest pulled chart to cache"

def errUpgradeCrossplaneVersion : String :=
  "cannot upgrade crossplane to universal-crossplane with version mismatch"

def errFailedUpgradeFailedRollback : String := "failed upgrade resulted in a failed rollback"

def errFailedUpgradeRollback : String := "failed upgrade was rolled back"

/-! ## Paths: Go's `path/filepath.Clean` and `filepath.Join` for slash paths

The helpers work on `List Char` (via `String.data`/`String.mk`) with
structural recursion so that concrete path computations reduce inside the
kernel. -/

/-- Split a character list on a separator character, like `strings.Split`. -/
def splitOnChar (c : Char) : List Char → List (List Char)
  | [] => [[]]
  | x :: xs =>
    match splitOnChar c xs with
    | [] => [[x]]
    | h :: t => if x = c then [] :: h :: t else (x :: h) :: t

/-- Join path components with the `/` separator. -/
def joinSlash : List (List Char) → List Char
  | [] => []
  | [x] => x
  | x :: y :: t => x ++ '/' :: joinSlash (y :: t)

/-- Whether a path is rooted, i.e. starts with the separator. -/
def isRooted (p : String) : Bool :=
  match p.data with
  | '/' :: _ => true
  | _ => false

/-- Component processing of Go's `filepath.Clean`: drop empty and `.`
components, resolve `..` against the stack (a leading `..` is kept for
relative paths and dropped for rooted ones). -/
def cleanComponents (rooted : Bool) (cs : List (List Char)) : List (List Char) :=
  (cs.foldl (fun acc c =>
    if c = [] ∨ c = ['.'] then acc
    else if c = ['.', '.'] then
      match acc with
      | [] => if rooted then [] else [['.', '.']]
      | top :: rest => if top = ['.', '.'] then c :: acc else rest
    else c :: acc) []).reverse

/-- Go's `filepath.Clean` for slash-separated paths. -/
def pathClean (p : String) : String :=
  if p = "" then "."
  else
    let joined := joinSlash (cleanComponents (isRooted p) (splitOnChar '/' p.data))
    if isRooted p then String.mk ('/' :: joined)
    else if joined = [] then "." else String.mk joined

/-- Go's `filepath.Join` on two elements: join the non-empty ones with a
separator and `Clean` the result; all-empty input gives the empty string. -/
def pathJoin (a b : String) : String :=
  if a = "" ∧ b = "" then ""
  else if a = "" then pathClean b
  else if b = "" then pathClean a
  else pathClean (a ++ "/" ++ b)

/-! ## Errors

Collaborator errors (`HelmError`) carry whether they are Helm's
`driver.ErrReleaseNotFound`; the installer wraps them with `pkg/errors`
(`Err.wrap` is `errors.Wrap`/`Wrapf`, `Err.fundamental` is
`errors.New`/`Errorf`).  `errors.Is(err, driver.ErrReleaseNotFound)`
traverses the wrap chain, which `Err.isNotFound` models. -/

inductive HelmError where
  | releaseNotFound
  | other (msg : String)
deriving DecidableEq, Repr

inductive Err where
  | base (e : HelmError)
  | wrap (msg : String) (inner : Err)
  | fundamental (msg : String)
deriving DecidableEq, Repr

/-- Does `errors.Is(err, driver.ErrReleaseNotFound)` hold, traversing wraps. -/
def Err.isNotFound : Err → Bool
  | .base .releaseNotFound => true
  | .base _ => false
  | .wrap _ inner => inner.isNotFound
  | .fundamental _ => false

/-- Does the error's cause chain contain the given collaborator error. -/
def Err.mentionsBase : Err → HelmError → Bool
  | .base e, e2 => e = e2
  | .wrap _ inner, e2 => inner.mentionsBase e2
  | .fundamental _, _ => false

/-! ## Data model -/

/-- The `Metadata` of a Helm chart, as read off a release (`release.Chart.Metadata`). -/
structure ChartMetadata where
  version : String
deriving DecidableEq, Repr

/-- The chart hanging off a release; `metadata` is `none` for a nil `Metadata` pointer. -/
structure ReleaseChart where
  metadata : Option ChartMetadata
deriving DecidableEq, Repr

/-- A release returned by the Helm get client; `chart` is `none` for a nil `Chart` pointer. -/
structure Release where
  chart : Option ReleaseChart
deriving DecidableEq, Repr

/-- An in-memory loaded chart object (`*chart.Chart` from the loader); opaque token. -/
structure HChart where
  tag : String
deriving DecidableEq, Repr

/-- The install/upgrade parameter map (`map[string]interface{}`), abstracted. -/
abbrev Params := List (String × String)

/-- A parsed semantic version as produced by the external Masterminds semver
library: major/minor/patch plus prerelease and build metadata strings. -/
structure SemVer where
  major : Nat
  minor : Nat
  patch : Nat
  pre : String
  meta : String
deriving DecidableEq, Repr

/-- Outcome of one repository pull: the file names the puller writes into its
destination directory, or a failure. -/
inductive PullOutcome where
  | ok (names : List String)
  | fail (e : HelmError)
deriving Repr

/-- Oracle bundle for the external collaborators: the semver parser, the Helm
action clients, the repository puller, the afero temp-dir maker, the
filesystem failure modes and the chart loader. -/
structure Env where
  parse : String → Option SemVer
  getRel : String → Except HelmError (Option Release)
  installRel : HChart → Params → Except HelmError Unit
  upgradeRel : String → HChart → Params → Except HelmError Unit
  rollbackRel : String → Option HelmError
  uninstallRel : String → Except HelmError Unit
  pull : String → String → PullOutcome
  tempDirAt : Nat → Except HelmError String
  readDirErrAt : String → Option HelmError
  renameErrAt : String → String → Option HelmError
  load : String → Except HelmError HChart

/-- Observable state of one invocation: the files present in the filesystem,
the pull client's mutable fields (`DestDir`, `Version`), and a log of the
arguments passed to each collaborator call. -/
structure World where
  files : List String
  tmpCount : Nat
  pullDestDir : String
  pullVersion : String
  pullLog : List (String × String)
  loadLog : List String
  getLog : List String
  installCalls : Nat
  upgradeLog : List String
  rollbackLog : List String
  uninstallLog : List String
  renameLog : List (String × String)
deriving DecidableEq, Repr

/-- Mutable installer configuration (the `installer` struct fields the core
logic reads and writes; clients and logger live in `Env`).  `nspace` is the
Go field `namespace` (a Lean keyword); `repoOverridden` models Go's
pointer-identity test `h.repoURL == u` against the default URL. -/
structure Installer where
  repoURL : String
  repoOverridden : Bool
  chartName : String
  releaseName : String
  nspace : String
  cacheDir : String
  unstable : Bool
  rollbackOnError : Bool
  force : Bool
deriving DecidableEq, Repr

/-! ## Construction: `NewInstaller` and the modifier functions -/

abbrev InstallerModifierFn := Installer → Installer

def withRepoURL (u : String) : InstallerModifierFn :=
  fun h => { h with repoURL := u, repoOverridden := true }

def withChartName (name : String) : InstallerModifierFn :=
  fun h => { h with chartName := name }

def withNamespace (ns : String) : InstallerModifierFn :=
  fun h => { h with nspace := ns }

def withCacheDir (c : String) : InstallerModifierFn :=
  fun h => { h with cacheDir := c }

def allowUnstableVersions (d : Bool) : InstallerModifierFn :=
  fun h => { h with unstable := d }

def rollbackOnErrorMod (r : Bool) : InstallerModifierFn :=
  fun h => { h with rollbackOnError := r }

def forceMod (f : Bool) : InstallerModifierFn :=
  fun h => { h with force := f }

/-- The literal `installer` value built at the top of `NewInstaller` before
modifiers run: both `chartName` and `releaseName` start as the canonical
default name. -/
def initialInstaller : Installer :=
  { repoURL := defaultRepoURL, repoOverridden := false, chartName := defaultChartName,
    releaseName := defaultChartName, nspace := defaultNamespace, cacheDir := "",
    unstable := false, rollbackOnError := false, force := false }

/-- Configuration part of `NewInstaller`: apply the modifiers, switch to the
unstable repository URL when unstable is requested and the URL was not
overridden, and default the cache directory under the home directory.  The
client construction and cache-directory creation side effects do not touch
these fields and are not modelled. -/
def newInstaller (home : String) (mods : List InstallerModifierFn) : Installer :=
  let h := mods.foldl (fun h m => m h) initialInstaller
  let h := if h.unstable ∧ ¬h.repoOverridden then { h with repoURL := defaultUnstableRepoURL } else h
  if h.cacheDir = "" then { h with cacheDir := pathJoin home defaultCacheDir } else h

/-! ## Operations -/

/-- The nil checks and version read at the end of `GetCurrentVersion`:
`release == nil || release.Chart == nil || release.Chart.Metadata == nil`
fails with `errVerifyInstalledVersion`, otherwise the metadata version is
returned (an empty version string included). -/
def checkRelease (rel : Option Release) : Except Err String :=
  match rel with
  | none => .error (.fundamental errVerifyInstalledVersion)
  | some r =>
    match r.chart with
    | none => .error (.fundamental errVerifyInstalledVersion)
    | some c =>
      match c.metadata with
      | none => .error (.fundamental errVerifyInstalledVersion)
      | some m => .ok m.version

/-- Embedding of `GetCurrentVersion`: query the canonical chart name; on
`ErrReleaseNotFound` retry the legacy name and on a legacy hit flip
`releaseName` to the legacy name (before the nil checks, so the flip happens
even when verification then fails); any other error on the first query is
returned verbatim, and any error on the legacy query is wrapped with
namespace context. -/
def getCurrentVersion (env : Env) (h : Installer) (w : World) :
    Except Err String × Installer × World :=
  let w0 := { w with getLog := w.getLog ++ [defaultChartName] }
  match env.getRel defaultChartName with
  | .ok rel => (checkRelease rel, h, w0)
  | .error e =>
    if e = .releaseNotFound then
      let w1 := { w0 with getLog := w0.getLog ++ [crossplaneChartName] }
      match env.getRel crossplaneChartName with
      | .error e2 => (.error (.wrap (errGetInstalledReleaseFmt h.nspace) (.base e2)), h, w1)
      | .ok rel => (checkRelease rel, { h with releaseName := crossplaneChartName }, w1)
    else (.error (.base e), h, w0)

/-- Embedding of `pullChart`: an empty version is replaced by the catch-all
`allVersions` constraint, the pull client's version is set, and the puller
runs against the chart name, writing its output files into the current
destination directory. -/
def pullChart (env : Env) (h : Installer) (w : World) (version : String) :
    Option HelmError × World :=
  let v := if version = "" then allVersions else version
  let w1 := { w with pullVersion := v, pullLog := w.pullLog ++ [(h.chartName, v)] }
  match env.pull h.chartName v with
  | .fail e => (some e, w1)
  | .ok names => (none, { w1 with files := w1.files ++ names.map (fun n => pathJoin w1.pullDestDir n) })

/-- Chart load step (`h.load(fileName)`); the loader error is returned verbatim. -/
def loadChart (env : Env) (w : World) (path : String) : Except Err HChart × World :=
  let w1 := { w with loadLog := w.loadLog ++ [path] }
  match env.load path with
  | .error e => (.error (.base e), w1)
  | .ok c => (.ok c, w1)

/-- Strip a leading character run from a list, returning the remainder when
the first argument is a leading run of the second. -/
def stripLeading : List Char → List Char → Option (List Char)
  | [], rest => some rest
  | _ :: _, [] => none
  | c :: cs, x :: xs => if x = c then stripLeading cs xs else none

/-- Files directly inside a directory, as `afero.ReadDir` lists them: the
paths of the form `dir/<name>` with `<name>` non-empty and slash-free. -/
def dirEntries (files : List String) (dir : String) : List String :=
  files.filterMap (fun p =>
    match stripLeading (dir ++ "/").data p.data with
    | none => none
    | some rest =>
      if rest ≠ [] ∧ ¬(rest.contains '/' = true) then some (String.mk rest) else none)

/-- The deferred `RemoveAll(tmp)`: drop the temporary directory's contents. -/
def cleanupTmp (w : World) (tmp : String) : World :=
  { w with files := w.files.filter (fun p => ¬(p = tmp ∨ (stripLeading (tmp ++ "/").data p.data).isSome = true)) }

/-- Embedding of `pullAndLoad`.  A leading `v` is stripped; the deterministic
cache file name is `Join(cacheDir, "<chart>-<version>.tgz")`.  For a
non-empty version the code stats `Join(cacheDir, fileName)` — note `fileName`
already contains the cache dir — and pulls into the cache dir on a stat
miss.  For an empty version it pulls into a fresh temporary directory, requires
exactly one file there, renames it onto `fileName`, and removes the
temporary directory on every exit path after its creation.  The load always
targets `fileName`. -/
def pullAndLoad (env : Env) (h : Installer) (w : World) (version : String) :
    Except Err HChart × World :=
  let version :=
    match version.data with
    | 'v' :: rest => String.mk rest
    | _ => version
  let fileName := pathJoin h.cacheDir (h.chartName ++ "-" ++ version ++ ".tgz")
  if version ≠ "" then
    if pathJoin h.cacheDir fileName ∈ w.files then
      loadChart env w fileName
    else
      let w1 := { w with pullDestDir := h.cacheDir }
      match pullChart env h w1 version with
      | (some e, w2) => (.error (.wrap errPullChart (.base e)), w2)
      | (none, w2) => loadChart env w2 fileName
  else
    match env.tempDirAt w.tmpCount with
    | .error e => (.error (.base e), { w with tmpCount := w.tmpCount + 1 })
    | .ok tmp =>
      let w1 := { w with tmpCount := w.tmpCount + 1, pullDestDir := tmp }
      match pullChart env h w1 "" with
      | (some e, w2) => (.error (.wrap errPullChart (.base e)), cleanupTmp w2 tmp)
      | (none, w2) =>
        match env.readDirErrAt tmp with
        | some e => (.error (.wrap errGetLatestPulled (.base e)), cleanupTmp w2 tmp)
        | none =>
          match dirEntries w2.files tmp with
          | [n] =>
            let tmpFileName := pathJoin tmp n
            let w3 := { w2 with renameLog := w2.renameLog ++ [(tmpFileName, fileName)] }
            match env.renameErrAt tmpFileName fileName with
            | some e => (.error (.wrap errMoveLatest (.base e)), cleanupTmp w3 tmp)
            | none =>
              let w4 := { w3 with
                files := w3.files.filter (fun p => p ≠ tmpFileName) ++ [fileName] }
              let r := loadChart env w4 fileName
              (r.1, cleanupTmp r.2 tmp)
          | _ => (.error (.fundamental (errCorruptTempDirFmt h.cacheDir)), cleanupTmp w2 tmp)

/-- Embedding of the Masterminds-semver comparison `equivalentVersions`:
true iff both strings parse and agree on major, minor and patch. -/
def equivalentVersions (parse : String → Option SemVer) (current target : String) : Bool :=
  match parse current with
  | none => false
  | some curV =>
    match parse target with
    | none => false
    | some tarV =>
      if curV.major = tarV.major ∧ curV.minor = tarV.minor ∧ curV.patch = tarV.patch
      then true else false

/-- Embedding of `Install`: a successful current-version lookup means the
chart is already installed; a lookup error that is not (a wrap of)
`ErrReleaseNotFound` is wrapped as a verification failure; otherwise the
chart is pulled, loaded and handed to the install client, whose error is
returned verbatim. -/
def install (env : Env) (h : Installer) (w : World) (version : String) (params : Params) :
    Except Err Unit × Installer × World :=
  match getCurrentVersion env h w with
  | (.ok current, h1, w1) => (.error (.fundamental (errChartAlreadyInstalledFmt current)), h1, w1)
  | (.error err, h1, w1) =>
    if err.isNotFound then
      match pullAndLoad env h1 w1 version with
      | (.error e, w2) => (.error e, h1, w2)
      | (.ok c, w2) =>
        let w3 := { w2 with installCalls := w2.installCalls + 1 }
        match env.installRel c params with
        | .error e => (.error (.base e), h1, w3)
        | .ok _ => (.ok (), h1, w3)
    else (.error (.wrap errVerifyChartNotInstalled err), h1, w1)

/-- Tail of `Upgrade` after the compatibility gate: pull and load the chart,
run the upgrade client against the resolved release name, and on upgrade
failure with rollback-on-error run the rollback client — a rollback failure
is returned wrapping the rollback error, a rollback success wrapping the
original upgrade error; without rollback-on-error the upgrade error is
returned verbatim. -/
def upgradeTail (env : Env) (h : Installer) (w : World) (version : String) (params : Params) :
    Except Err Unit × World :=
  match pullAndLoad env h w version with
  | (.error e, w1) => (.error e, w1)
  | (.ok c, w1) =>
    let w2 := { w1 with upgradeLog := w1.upgradeLog ++ [h.releaseName] }
    match env.upgradeRel h.releaseName c params with
    | .ok _ => (.ok (), w2)
    | .error upErr =>
      if h.rollbackOnError then
        let w3 := { w2 with rollbackLog := w2.rollbackLog ++ [h.releaseName] }
        match env.rollbackRel h.releaseName with
        | some rErr => (.error (.wrap errFailedUpgradeFailedRollback (.base rErr)), w3)
        | none => (.error (.wrap errFailedUpgradeRollback (.base upErr)), w3)
      else (.error (.base upErr), w2)

/-- Embedding of `Upgrade`: look up the current version (possibly flipping
the release name to the legacy one), apply the legacy-name compatibility
gate, and then run `upgradeTail`. -/
def upgrade (env : Env) (h : Installer) (w : World) (version : String) (params : Params) :
    Except Err Unit × Installer × World :=
  match getCurrentVersion env h w with
  | (.error e, h1, w1) => (.error e, h1, w1)
  | (.ok current, h1, w1) =>
    if h1.releaseName = crossplaneChartName ∧ ¬(equivalentVersions env.parse current version) ∧ ¬h1.force
    then (.error (.fundamental errUpgradeCrossplaneVersion), h1, w1)
    else
      let r := upgradeTail env h1 w1 version params
      (r.1, h1, r.2)

/-- Embedding of `Uninstall`: run the uninstall client against the configured
chart name (not the resolved release name); its error is returned verbatim. -/
def uninstall (env : Env) (h : Installer) (w : World) : Except Err Unit × Installer × World :=
  let w1 := { w with uninstallLog := w.uninstallLog ++ [h.chartName] }
  match env.uninstallRel h.chartName with
  | .error e => (.error (.base e), h, w1)
  | .ok _ => (.ok (), h, w1)

/-! ## Concrete scenarios used to instantiate the theorems -/

/-- The world at the start of an invocation: empty cache, no calls logged. -/
def emptyWorld : World :=
  { files := [], tmpCount := 0, pullDestDir := "/cache", pullVersion := "",
    pullLog := [], loadLog := [], getLog := [], installCalls := 0, upgradeLog := [],
    rollbackLog := [], uninstallLog := [], renameLog := [] }

/-- A default-configured installer with cache directory `/cache`. -/
def cacheInstaller : Installer := { initialInstaller with cacheDir := "/cache" }

/-- A release whose chart metadata carries the given version. -/
def relWithVersion (v : String) : Release :=
  { chart := some { metadata := some { version := v } } }

/-- A benign collaborator oracle: no release installed, the puller writes
`<chart>-<version>.tgz` into its destination directory, every other call
succeeds, and nothing parses as a semver. -/
def benignEnv : Env :=
  { parse := fun _ => none,
    getRel := fun _ => .error .releaseNotFound,
    installRel := fun _ _ => .ok (),
    upgradeRel := fun _ _ _ => .ok (),
    rollbackRel := fun _ => none,
    uninstallRel := fun _ => .ok (),
    pull := fun name v => .ok [name ++ "-" ++ v ++ ".tgz"],
    tempDirAt := fun _ => .ok "/cache/tmp1",
    readDirErrAt := fun _ => none,
    renameErrAt := fun _ _ => none,
    load := fun _ => .ok { tag := "chart" } }

/-- Only the legacy release exists, at version 1.2.3. -/
def envLegacy : Env :=
  { benignEnv with getRel := fun n =>
      if n = crossplaneChartName then Except.ok (some (relWithVersion "1.2.3"))
      else Except.error HelmError.releaseNotFound }

/-- The canonical release exists, at version 1.5.0. -/
def envCanonical : Env :=
  { benignEnv with getRel := fun _ => .ok (some (relWithVersion "1.5.0")) }

/-- The canonical release exists but the store upgrade fails; rollback succeeds. -/
def envUpFail : Env :=
  { envCanonical with upgradeRel := fun _ _ _ => .error (.other "upgrade failed") }

/-- The canonical release exists, the store upgrade fails, and so does rollback. -/
def envUpFailRbFail : Env :=
  { envUpFail with rollbackRel := fun _ => some (.other "rollback failed") }

/-- The latest-version pull drops two files into the temporary directory. -/
def envTwoFiles : Env :=
  { benignEnv with pull := fun _ _ => .ok ["a.tgz", "b.tgz"] }

/-- The latest-version pull resolves to the concrete archive `<chart>-1.9.0.tgz`. -/
def envLatest : Env :=
  { benignEnv with pull := fun name _ => .ok [name ++ "-1.9.0.tgz"] }

/-- As `envLatest`, but the rename into the cache root fails. -/
def envLatestRenameFail : Env :=
  { envLatest with renameErrAt := fun _ _ => some (.other "disk full") }

/-- The canonical release exists but its chart metadata has an empty version string. -/
def envMetaEmptyVersion : Env :=
  { benignEnv with getRel := fun _ => .ok (some (relWithVersion "")) }

/-- The canonical-name lookup fails with an error that is not "release not found". -/
def envGetBoom : Env :=
  { benignEnv with getRel := fun n =>
      if n = defaultChartName then Except.error (HelmError.other "boom")
      else Except.error HelmError.releaseNotFound }

/-- The store reports "release not found" on uninstall. -/
def envUninstallNotFound : Env :=
  { benignEnv with uninstallRel := fun _ => .error .releaseNotFound }

/-- A tiny concrete semver parser recognising two version strings, used to
instantiate the version-resolver theorem. -/
def parseTwo : String → Option SemVer := fun s =>
  if s = "1.2.3" then some { major := 1, minor := 2, patch := 3, pre := "", meta := "" }
  else if s = "1.2.3-up.1" then some { major := 1, minor := 2, patch := 3, pre := "up.1", meta := "" }
  else none

/-! ## Helper lemmas -/

/-- The current-version lookup only reads the release store: every `World`
component except the get-call log is unchanged. -/
theorem getCurrentVersion_frame (env : Env) (h : Installer) (w : World) :
    (getCurrentVersion env h w).2.2.files = w.files ∧
    (getCurrentVersion env h w).2.2.pullLog = w.pullLog ∧
    (getCurrentVersion env h w).2.2.loadLog = w.loadLog ∧
    (getCurrentVersion env h w).2.2.installCalls = w.installCalls ∧
    (getCurrentVersion env h w).2.2.upgradeLog = w.upgradeLog ∧
    (getCurrentVersion env h w).2.2.rollbackLog = w.rollbackLog ∧
    (getCurrentVersion env h w).2.2.uninstallLog = w.uninstallLog ∧
    (getCurrentVersion env h w).2.2.renameLog = w.renameLog ∧
    (getCurrentVersion env h w).2.2.tmpCount = w.tmpCount := by
  unfold getCurrentVersion
  cases hg : env.getRel defaultChartName with
  | ok rel => simp
  | error e =>
    by_cases he : e = HelmError.releaseNotFound
    · cases hg2 : env.getRel crossplaneChartName with
      | ok rel => simp [he, hg2]
      | error e2 => simp [he, hg2]
    · simp [he]

/-! ## Claim theorems -/

/-- C5: `equivalentVersions` is true on pairs that both parse and agree on
major, minor and patch (so in particular on pairs differing only in the
prerelease tag), false when any of major, minor or patch differ, and false
whenever either operand fails to parse — never an error. -/
theorem equivalentVersions_spec (parse : String → Option SemVer) (a b : String) :
    (∀ va vb, parse a = some va → parse b = some vb →
      ((va.major = vb.major ∧ va.minor = vb.minor ∧ va.patch = vb.patch) →
        equivalentVersions parse a b = true) ∧
      ((va.major ≠ vb.major ∨ va.minor ≠ vb.minor ∨ va.patch ≠ vb.patch) →
        equivalentVersions parse a b = false)) ∧
    ((parse a = none ∨ parse b = none) → equivalentVersions parse a b = false) := by
  constructor
  · intro va vb ha hb
    constructor
    · intro hmmp
      simp [equivalentVersions, ha, hb, hmmp.1, hmmp.2.1, hmmp.2.2]
    · intro hne
      simp only [equivalentVersions, ha, hb]
      rcases hne with h1 | h2 | h3
      · simp [h1]
      · simp [h2]
      · simp [h3]
  · intro hnone
    rcases hnone with ha | hb
    · simp [equivalentVersions, ha]
    · cases hpa : parse a with
      | none => simp [equivalentVersions, hpa]
      | some va => simp [equivalentVersions, hpa, hb]

/-- Witness for C5 at the concrete parser `parseTwo`: a pair differing only
in prerelease is equivalent, and an unparsable operand is non-equivalent. -/
theorem equivalentVersions_spec_witness :
    equivalentVersions parseTwo "1.2.3" "1.2.3-up.1" = true ∧
    equivalentVersions parseTwo "bogus" "1.2.3" = false :=
  ⟨(((equivalentVersions_spec parseTwo "1.2.3" "1.2.3-up.1").1
      { major := 1, minor := 2, patch := 3, pre := "", meta := "" }
      { major := 1, minor := 2, patch := 3, pre := "up.1", meta := "" }
      (by decide) (by decide)).1 ⟨rfl, rfl, rfl⟩),
   ((equivalentVersions_spec parseTwo "bogus" "1.2.3").2 (Or.inl (by decide)))⟩

/-- C2: when the resolved release name is the legacy one, the current and
target versions are not resolver-equivalent and force is off, `Upgrade`
fails with the version-mismatch error and no pull or load has occurred;
when force is on, or the resolved name is not the legacy one, the gate does
not fire and the pull/load/upgrade tail executes. -/
theorem upgrade_legacy_version_gate (env : Env) (h : Installer) (w : World)
    (v : String) (p : Params) (current : String) (h1 : Installer) (w1 : World)
    (hget : getCurrentVersion env h w = (.ok current, h1, w1)) :
    ((h1.releaseName = crossplaneChartName ∧ equivalentVersions env.parse current v = false ∧
        h1.force = false) →
      upgrade env h w v p = (.error (.fundamental errUpgradeCrossplaneVersion), h1, w1) ∧
      w1.pullLog = w.pullLog ∧ w1.loadLog = w.loadLog) ∧
    ((h1.force = true ∨ h1.releaseName ≠ crossplaneChartName) →
      upgrade env h w v p = ((upgradeTail env h1 w1 v p).1, h1, (upgradeTail env h1 w1 v p).2)) := by
  have hframe := getCurrentVersion_frame env h w
  rw [hget] at hframe
  constructor
  · intro ⟨hname, hneq, hforce⟩
    refine ⟨?_, hframe.2.1, hframe.2.2.1⟩
    unfold upgrade
    rw [hget]
    simp [hname, hneq, hforce]
  · intro hgate
    unfold upgrade
    rw [hget]
    rcases hgate with hforce | hname
    · simp [hforce]
    · simp [hname]

/-- Witness for C2: with only the legacy release installed and an
unparsable target version, `Upgrade` without force fails with the
version-mismatch error. -/
theorem upgrade_legacy_version_gate_witness :
    upgrade envLegacy cacheInstaller emptyWorld "1.9.0" [] =
      (.error (.fundamental errUpgradeCrossplaneVersion),
       { cacheInstaller with releaseName := crossplaneChartName },
       { emptyWorld with getLog := [defaultChartName, crossplaneChartName] }) :=
  ((upgrade_legacy_version_gate envLegacy cacheInstaller emptyWorld "1.9.0" [] "1.2.3"
      { cacheInstaller with releaseName := crossplaneChartName }
      { emptyWorld with getLog := [defaultChartName, crossplaneChartName] }
      rfl).1 ⟨rfl, rfl, rfl⟩).1

/-- C4: `Install` against a namespace with a release present (the lookup
succeeded, under either name) fails with the already-installed error carrying
the current version and performs no pull, no load and no release-store
mutation; a lookup error other than "release not found" is returned wrapped
as a verification failure. -/
theorem install_present_or_verify_fail (env : Env) (h : Installer) (w : World)
    (v : String) (p : Params) :
    (∀ current h1 w1, getCurrentVersion env h w = (.ok current, h1, w1) →
      install env h w v p = (.error (.fundamental (errChartAlreadyInstalledFmt current)), h1, w1) ∧
      w1.pullLog = w.pullLog ∧ w1.loadLog = w.loadLog ∧ w1.installCalls = w.installCalls ∧
      w1.upgradeLog = w.upgradeLog ∧ w1.uninstallLog = w.uninstallLog ∧
      w1.rollbackLog = w.rollbackLog ∧ w1.renameLog = w.renameLog ∧ w1.files = w.files) ∧
    (∀ e h1 w1, getCurrentVersion env h w = (.error e, h1, w1) → e.isNotFound = false →
      install env h w v p = (.error (.wrap errVerifyChartNotInstalled e), h1, w1)) := by
  constructor
  · intro current h1 w1 hget
    have hframe := getCurrentVersion_frame env h w
    rw [hget] at hframe
    obtain ⟨hf, hpl, hll, hic, hug, hrb, hun, hrn, -⟩ := hframe
    refine ⟨?_, hpl, hll, hic, hug, hun, hrb, hrn, hf⟩
    unfold install
    rw [hget]
  · intro e h1 w1 hget hnf
    unfold install
    rw [hget]
    simp [hnf]

/-- Witness for C4: with the canonical release present at 1.5.0, `Install`
fails with the already-installed error and an untouched world apart from the
lookup log. -/
theorem install_present_or_verify_fail_witness :
    install envCanonical cacheInstaller emptyWorld "1.9.0" [] =
      (.error (.fundamental (errChartAlreadyInstalledFmt "1.5.0")), cacheInstaller,
       { emptyWorld with getLog := [defaultChartName] }) :=
  ((install_present_or_verify_fail envCanonical cacheInstaller emptyWorld "1.9.0" []).1
    "1.5.0" cacheInstaller { emptyWorld with getLog := [defaultChartName] } rfl).1

/-- C8 counterexample: a release found whose chart metadata carries an empty
version string does not fail with the verification error — the lookup
returns the empty version successfully. -/
theorem getCurrentVersion_empty_version_ok :
    (getCurrentVersion envMetaEmptyVersion cacheInstaller emptyWorld).1 = .ok "" ∧
    (Except.ok "" : Except Err String) ≠
      .error (.fundamental errVerifyInstalledVersion) := by
  exact ⟨rfl, by simp⟩

/-- C8 (amended): the lookup queries the canonical name first and retries
the legacy name only on "release not found", recording the legacy release
name on a legacy hit (before verification, so the flip happens even when
verification then fails); any other canonical-lookup error is returned
verbatim and a legacy-lookup error is wrapped with namespace context; a
found release missing the release object, chart or metadata fails with the
verification error, while present metadata yields its version string — an
empty one included. -/
theorem getCurrentVersion_lookup_spec (env : Env) (h : Installer) (w : World) :
    (∀ e, env.getRel defaultChartName = .error e → e ≠ .releaseNotFound →
      getCurrentVersion env h w =
        (.error (.base e), h, { w with getLog := w.getLog ++ [defaultChartName] })) ∧
    (∀ e2, env.getRel defaultChartName = .error .releaseNotFound →
      env.getRel crossplaneChartName = .error e2 →
      getCurrentVersion env h w =
        (.error (.wrap (errGetInstalledReleaseFmt h.nspace) (.base e2)), h,
         { w with getLog := w.getLog ++ [defaultChartName, crossplaneChartName] })) ∧
    (∀ rel, env.getRel defaultChartName = .error .releaseNotFound →
      env.getRel crossplaneChartName = .ok rel →
      getCurrentVersion env h w =
        (checkRelease rel, { h with releaseName := crossplaneChartName },
         { w with getLog := w.getLog ++ [defaultChartName, crossplaneChartName] })) ∧
    (∀ rel, env.getRel defaultChartName = .ok rel →
      getCurrentVersion env h w =
        (checkRelease rel, h, { w with getLog := w.getLog ++ [defaultChartName] })) ∧
    (checkRelease none = .error (.fundamental errVerifyInstalledVersion) ∧
     checkRelease (some { chart := none }) = .error (.fundamental errVerifyInstalledVersion) ∧
     checkRelease (some { chart := some { metadata := none } }) =
       .error (.fundamental errVerifyInstalledVersion)) ∧
    (∀ m, checkRelease (some { chart := some { metadata := some m } }) = .ok m.version) := by
  refine ⟨?_, ?_, ?_, ?_, ⟨rfl, rfl, rfl⟩, fun m => rfl⟩
  · intro e hg hne
    unfold getCurrentVersion
    rw [hg]
    simp [hne]
  · intro e2 hg hg2
    unfold getCurrentVersion
    rw [hg]
    simp [hg2]
  · intro rel hg hg2
    unfold getCurrentVersion
    rw [hg]
    simp [hg2]
  · intro rel hg
    unfold getCurrentVersion
    rw [hg]

/-- Witness for C8: with only the legacy release installed at 1.2.3, the
lookup returns 1.2.3, flips the release name and logged canonical-then-legacy
queries. -/
theorem getCurrentVersion_lookup_spec_witness :
    getCurrentVersion envLegacy cacheInstaller emptyWorld =
      (.ok "1.2.3", { cacheInstaller with releaseName := crossplaneChartName },
       { emptyWorld with getLog := [defaultChartName, crossplaneChartName] }) := by
  have hc := (getCurrentVersion_lookup_spec envLegacy cacheInstaller emptyWorld).2.2.1
    (some (relWithVersion "1.2.3")) rfl rfl
  rw [hc]
  rfl

/-- C1 (amended): on a failed store upgrade with rollback-on-error enabled,
a successful rollback yields the rolled-back error wrapping the original
upgrade error, while a failed rollback yields the failed-rollback error
wrapping the rollback error only — the original upgrade error's cause is not
part of the returned chain. -/
theorem upgrade_rollback_error_shapes (env : Env) (h : Installer) (w : World)
    (v : String) (p : Params) (current : String) (h1 : Installer) (w1 : World)
    (c : HChart) (w2 : World) (upErr : HelmError)
    (hget : getCurrentVersion env h w = (.ok current, h1, w1))
    (hgate : h1.force = true ∨ h1.releaseName ≠ crossplaneChartName ∨
      equivalentVersions env.parse current v = true)
    (hpull : pullAndLoad env h1 w1 v = (.ok c, w2))
    (hup : env.upgradeRel h1.releaseName c p = .error upErr)
    (hrb : h1.rollbackOnError = true) :
    (env.rollbackRel h1.releaseName = none →
      (upgrade env h w v p).1 = .error (.wrap errFailedUpgradeRollback (.base upErr))) ∧
    (∀ rErr, env.rollbackRel h1.releaseName = some rErr →
      (upgrade env h w v p).1 = .error (.wrap errFailedUpgradeFailedRollback (.base rErr))) := by
  have hcond : ¬(h1.releaseName = crossplaneChartName ∧
      equivalentVersions env.parse current v = false ∧ h1.force = false) := by
    rcases hgate with hf | hn | he
    · intro hc
      rw [hf] at hc
      exact absurd hc.2.2 (by simp)
    · intro hc
      exact hn hc.1
    · intro hc
      rw [he] at hc
      exact absurd hc.2.1 (by simp)
  constructor
  · intro hnone
    unfold upgrade
    rw [hget]
    simp [upgradeTail, hcond, hpull, hup, hrb, hnone]
  · intro rErr hsome
    unfold upgrade
    rw [hget]
    simp [upgradeTail, hcond, hpull, hup, hrb, hsome]

/-- Witness for C1: with the canonical release present, a failing store
upgrade and rollback-on-error, a successful rollback yields the rolled-back
error wrapping the upgrade failure. -/
theorem upgrade_rollback_error_shapes_witness :
    (upgrade envUpFail { cacheInstaller with rollbackOnError := true } emptyWorld
        "1.9.0" []).1 =
      .error (.wrap errFailedUpgradeRollback (.base (.other "upgrade failed"))) :=
  (upgrade_rollback_error_shapes envUpFail { cacheInstaller with rollbackOnError := true }
      emptyWorld "1.9.0" [] "1.5.0"
      { cacheInstaller with rollbackOnError := true }
      { emptyWorld with getLog := [defaultChartName] }
      { tag := "chart" }
      { emptyWorld with
          getLog := [defaultChartName], pullDestDir := "/cache", pullVersion := "1.9.0",
          pullLog := [(defaultChartName, "1.9.0")],
          files := ["/cache/universal-crossplane-1.9.0.tgz"],
          loadLog := ["/cache/universal-crossplane-1.9.0.tgz"] }
      (.other "upgrade failed") rfl (Or.inr (Or.inl (by decide))) rfl rfl rfl).1 rfl

/-- C1 counterexample: when both the upgrade and the rollback fail, the
returned error wraps only the rollback error; the original upgrade error's
cause is not in its chain, contrary to the claim that both are wrapped. -/
theorem upgrade_rollbackFailed_drops_upgrade_error :
    (upgrade envUpFailRbFail { cacheInstaller with rollbackOnError := true } emptyWorld
        "1.9.0" []).1 =
      .error (.wrap errFailedUpgradeFailedRollback (.base (.other "rollback failed"))) ∧
    Err.mentionsBase (.wrap errFailedUpgradeFailedRollback (.base (.other "rollback failed")))
      (.other "upgrade failed") = false := by
  exact ⟨rfl, rfl⟩

/-- C9: `Uninstall` always targets the configured chart name — with the
canonical configuration it queries the store under the canonical name even
when the release name was resolved to the legacy one, so a legacy-only
installation is reported not-found rather than removed. -/
theorem uninstall_targets_chart_name (env : Env) (h : Installer) (w : World)
    (hc : h.chartName = defaultChartName) :
    (uninstall env { h with releaseName := crossplaneChartName } w).2.2.uninstallLog =
      w.uninstallLog ++ [defaultChartName] ∧
    (uninstall env h w).2.2.uninstallLog = w.uninstallLog ++ [defaultChartName] ∧
    (env.uninstallRel defaultChartName = .error .releaseNotFound →
      (uninstall env { h with releaseName := crossplaneChartName } w).1 =
        .error (.base .releaseNotFound)) := by
  unfold uninstall
  simp only [hc]
  cases hu : env.uninstallRel defaultChartName with
  | ok r => simp
  | error e =>
    refine ⟨by simp, by simp, ?_⟩
    intro hnf
    injection hnf with he
    subst he
    simp

/-- Witness for C9: against a store with no canonical release, uninstalling
a legacy-resolved installation reports not-found and targeted only the
canonical name. -/
theorem uninstall_targets_chart_name_witness :
    (uninstall envUninstallNotFound
        { cacheInstaller with releaseName := crossplaneChartName } emptyWorld).1 =
      .error (.base .releaseNotFound) ∧
    (uninstall envUninstallNotFound
        { cacheInstaller with releaseName := crossplaneChartName } emptyWorld).2.2.uninstallLog =
      [defaultChartName] := by
  have hthm := uninstall_targets_chart_name envUninstallNotFound cacheInstaller emptyWorld rfl
  exact ⟨hthm.2.2 rfl, hthm.1⟩

/-- C10: the release name starts as the canonical default chart name (equal
to the configured chart name under the CLI's construction, which never
overrides the chart name); the only mutation any operation performs on the
installer state is the legacy-fallback flip to `crossplane` inside the
current-version lookup; it is never flipped back; and install/upgrade return
the post-lookup state whatever their outcome, so the flip persists across
failures. -/
theorem releaseName_lifecycle_invariant :
    initialInstaller.releaseName = initialInstaller.chartName ∧
    (∀ home ns u,
      (newInstaller home [withNamespace ns, allowUnstableVersions u]).releaseName =
        (newInstaller home [withNamespace ns, allowUnstableVersions u]).chartName ∧
      (newInstaller home [withNamespace ns, allowUnstableVersions u]).releaseName =
        defaultChartName) ∧
    (∀ env h w, (getCurrentVersion env h w).2.1 =
      (match env.getRel defaultChartName with
        | .error .releaseNotFound =>
          (match env.getRel crossplaneChartName with
            | .ok _ => { h with releaseName := crossplaneChartName }
            | .error _ => h)
        | _ => h)) ∧
    (∀ env h w, h.releaseName = crossplaneChartName →
      (getCurrentVersion env h w).2.1.releaseName = crossplaneChartName) ∧
    (∀ env h w v p, (install env h w v p).2.1 = (getCurrentVersion env h w).2.1) ∧
    (∀ env h w v p, (upgrade env h w v p).2.1 = (getCurrentVersion env h w).2.1) ∧
    (∀ env h w, (uninstall env h w).2.1 = h) := by
  refine ⟨rfl, ?_, ?_, ?_, ?_, ?_, ?_⟩
  · intro home ns u
    cases u <;>
      simp [newInstaller, withNamespace, allowUnstableVersions, initialInstaller]
  · intro env h w
    unfold getCurrentVersion
    cases hg : env.getRel defaultChartName with
    | ok rel => simp
    | error e =>
      cases e with
      | releaseNotFound =>
        cases hg2 : env.getRel crossplaneChartName with
        | ok rel => simp [hg2]
        | error e2 => simp [hg2]
      | other m => simp
  · intro env h w hrn
    unfold getCurrentVersion
    cases hg : env.getRel defaultChartName with
    | ok rel => simpa using hrn
    | error e =>
      cases e with
      | releaseNotFound =>
        cases hg2 : env.getRel crossplaneChartName with
        | ok rel => simp [hg2]
        | error e2 => simpa [hg2] using hrn
      | other m => simpa using hrn
  · intro env h w v p
    rcases hg : getCurrentVersion env h w with ⟨r, h1, w1⟩
    unfold install
    rw [hg]
    cases r with
    | ok current => simp
    | error e =>
      by_cases hnf : e.isNotFound = true
      · rcases hp : pullAndLoad env h1 w1 v with ⟨pr, w2⟩
        cases pr with
        | error e2 => simp [hnf, hp]
        | ok c =>
          cases hi : env.installRel c p with
          | error e3 => simp [hnf, hp, hi]
          | ok r2 => simp [hnf, hp, hi]
      · simp [hnf]
  · intro env h w v p
    rcases hg : getCurrentVersion env h w with ⟨r, h1, w1⟩
    unfold upgrade
    rw [hg]
    cases r with
    | error e => simp
    | ok current =>
      by_cases hc : (h1.releaseName = crossplaneChartName ∧
          equivalentVersions env.parse current v = false ∧ h1.force = false)
      · simp [hc]
      · simp [hc]
  · intro env h w
    unfold uninstall
    cases hu : env.uninstallRel h.chartName with
    | ok r => simp
    | error e => simp

/-- Witness for C10: an installer already flipped to the legacy release name
keeps it through a lookup that finds nothing under either name. -/
theorem releaseName_lifecycle_invariant_witness :
    (getCurrentVersion benignEnv
        { cacheInstaller with releaseName := crossplaneChartName } emptyWorld).2.1.releaseName =
      crossplaneChartName :=
  releaseName_lifecycle_invariant.2.2.2.1 benignEnv
    { cacheInstaller with releaseName := crossplaneChartName } emptyWorld rfl

/-- C3 (code-bug evidence): for a concrete version the cache-existence check
stats `Join(cacheDir, fileName)` although `fileName` already contains the
cache directory, so it inspects `/cache/cache/...` where the archive is never
written; pulling the same `(chartName, version)` twice therefore invokes the
puller twice even though the first pull left the archive under the
deterministic cache file name. -/
theorem pullAndLoad_repulls_cached_concrete_version :
    pathJoin cacheInstaller.cacheDir (cacheInstaller.chartName ++ "-" ++ "1.2.3" ++ ".tgz") =
      "/cache/universal-crossplane-1.2.3.tgz" ∧
    (pullAndLoad benignEnv cacheInstaller emptyWorld "1.2.3").2.files =
      ["/cache/universal-crossplane-1.2.3.tgz"] ∧
    pathJoin cacheInstaller.cacheDir "/cache/universal-crossplane-1.2.3.tgz" =
      "/cache/cache/universal-crossplane-1.2.3.tgz" ∧
    (pullAndLoad benignEnv cacheInstaller
        (pullAndLoad benignEnv cacheInstaller emptyWorld "1.2.3").2 "1.2.3").2.pullLog =
      [(defaultChartName, "1.2.3"), (defaultChartName, "1.2.3")] := by
  exact ⟨rfl, rfl, rfl, rfl⟩

/-- C6: a latest-version pull whose temporary directory does not hold exactly
one file afterwards fails with the corrupt-cache error and never attempts a
rename. -/
theorem pullAndLoad_latest_corrupt_tmp (env : Env) (h : Installer) (w : World)
    (tmp : String) (names : List String)
    (htmp : env.tempDirAt w.tmpCount = .ok tmp)
    (hpull : env.pull h.chartName allVersions = .ok names)
    (hrd : env.readDirErrAt tmp = none)
    (hcnt : (dirEntries (w.files ++ names.map (fun n => pathJoin tmp n)) tmp).length ≠ 1) :
    (pullAndLoad env h w "").1 = .error (.fundamental (errCorruptTempDirFmt h.cacheDir)) ∧
    (pullAndLoad env h w "").2.renameLog = w.renameLog := by
  have hv : ("" : String).data = ([] : List Char) := rfl
  rcases hd : dirEntries (w.files ++ names.map (fun n => pathJoin tmp n)) tmp with
    _ | ⟨n, _ | ⟨m, t⟩⟩
  · constructor <;>
      simp [pullAndLoad, pullChart, hv, htmp, hpull, hrd, hd, cleanupTmp]
  · exact absurd (by rw [hd]; rfl) hcnt
  · constructor <;>
      simp [pullAndLoad, pullChart, hv, htmp, hpull, hrd, hd, cleanupTmp]

/-- Witness for C6: a latest pull that drops two files into the temporary
directory fails with the corrupt-cache error and leaves the rename log empty. -/
theorem pullAndLoad_latest_corrupt_tmp_witness :
    (pullAndLoad envTwoFiles cacheInstaller emptyWorld "").1 =
      .error (.fundamental (errCorruptTempDirFmt "/cache")) ∧
    (pullAndLoad envTwoFiles cacheInstaller emptyWorld "").2.renameLog = [] :=
  pullAndLoad_latest_corrupt_tmp envTwoFiles cacheInstaller emptyWorld "/cache/tmp1"
    ["a.tgz", "b.tgz"] rfl rfl rfl (by decide)

/-- C7 counterexample: the single pulled file `universal-crossplane-1.9.0.tgz`
is renamed to `Join(cacheDir, "<chart>-.tgz")` — the deterministic file name
computed with the empty version — not to its pulled name in the cache root. -/
theorem pullAndLoad_latest_rename_dest_not_pulled_name :
    (pullAndLoad envLatest cacheInstaller emptyWorld "").2.renameLog =
      [("/cache/tmp1/universal-crossplane-1.9.0.tgz", "/cache/universal-crossplane-.tgz")] ∧
    "/cache/universal-crossplane-.tgz" ≠
      pathJoin cacheInstaller.cacheDir "universal-crossplane-1.9.0.tgz" := by
  exact ⟨rfl, by decide⟩

/-- C7 (amended): a latest-version pull whose temporary directory holds
exactly one file renames that file onto the deterministic cache file name
computed from the chart name and the empty version (`<chart>-.tgz` in the
cache root), and a rename failure is reported wrapped as the move-latest
(cache-write) error. -/
theorem pullAndLoad_latest_rename_and_failure (env : Env) (h : Installer) (w : World)
    (tmp : String) (names : List String) (n : String)
    (htmp : env.tempDirAt w.tmpCount = .ok tmp)
    (hpull : env.pull h.chartName allVersions = .ok names)
    (hrd : env.readDirErrAt tmp = none)
    (hone : dirEntries (w.files ++ names.map (fun m => pathJoin tmp m)) tmp = [n]) :
    (pullAndLoad env h w "").2.renameLog =
      w.renameLog ++ [(pathJoin tmp n, pathJoin h.cacheDir (h.chartName ++ "-.tgz"))] ∧
    (∀ e, env.renameErrAt (pathJoin tmp n) (pathJoin h.cacheDir (h.chartName ++ "-.tgz")) =
        some e →
      (pullAndLoad env h w "").1 = .error (.wrap errMoveLatest (.base e))) := by
  have hv : ("" : String).data = ([] : List Char) := rfl
  constructor
  · cases hre : env.renameErrAt (pathJoin tmp n) (pathJoin h.cacheDir (h.chartName ++ "-.tgz")) with
    | some e =>
      simp [pullAndLoad, pullChart, loadChart, hv, htmp, hpull, hrd, hone, cleanupTmp,
        String.append_assoc, hre]
    | none =>
      cases hl : env.load (pathJoin h.cacheDir (h.chartName ++ "-.tgz")) with
      | error e2 =>
        simp [pullAndLoad, pullChart, loadChart, hv, htmp, hpull, hrd, hone, cleanupTmp,
          String.append_assoc, hre, hl]
      | ok c =>
        simp [pullAndLoad, pullChart, loadChart, hv, htmp, hpull, hrd, hone, cleanupTmp,
          String.append_assoc, hre, hl]
  · intro e hre
    simp [pullAndLoad, pullChart, loadChart, hv, htmp, hpull, hrd, hone, cleanupTmp,
      String.append_assoc, hre]

/-- Witness for C7: with the single pulled file and a failing rename, the
operation logs the rename onto `<chart>-.tgz` and fails with the move-latest
error. -/
theorem pullAndLoad_latest_rename_and_failure_witness :
    (pullAndLoad envLatestRenameFail cacheInstaller emptyWorld "").2.renameLog =
      [("/cache/tmp1/universal-crossplane-1.9.0.tgz", "/cache/universal-crossplane-.tgz")] ∧
    (pullAndLoad envLatestRenameFail cacheInstaller emptyWorld "").1 =
      .error (.wrap errMoveLatest (.base (.other "disk full"))) := by
  have hthm := pullAndLoad_latest_rename_and_failure envLatestRenameFail cacheInstaller
    emptyWorld "/cache/tmp1" ["universal-crossplane-1.9.0.tgz"]
    "universal-crossplane-1.9.0.tgz" rfl rfl rfl (by decide)
  exact ⟨hthm.1, hthm.2 (.other "disk full") rfl⟩

end UpHelm
